import Mathlib

/-!
Verification of the guest-mode local persistence and context-assembly
subsystem of the AskStash repository.

The definitions below are a shallow embedding of
src/src/services/guestService.ts (and its equivalent .js variant), of the
visibilitychange listener registered in that module, and of the guest-mode
branch of handleSendMessage in the dashboard page.  Browser local storage is
modelled as a record of the four guest-mode slots; a collection slot can be
absent, unreadable (getItem throws), corrupt (the stored string makes
JSON.parse throw) or hold a parsed list.  A stored string that parses
successfully but to a non-array value is returned unchecked by the source
(the catch never fires); the coarse Slot model has no state for it, and the
finer RawSlot model below distinguishes it.  Wall-clock reads (Date.now())
are passed
in explicitly as a natural number of milliseconds.  The AI backend call in
generateAIResponse is modelled as an oracle of type Except String String:
ok carries the response string of a successful round trip, error carries the
stringified exception of a failed one (network failure or non-ok status).
-/

namespace AskStash

/-- A guest document record, as stored under the guestDocuments key
(interface GuestDocument in guestService.ts). -/
structure GuestDocument where
  id : String
  filename : String
  file_type : String
  content : String
  created_at : String
deriving Repr, DecidableEq

/-- A guest chat message record, as stored under the guestChatHistory key
(interface GuestChatMessage in guestService.ts).  context_documents is an
optional serialized source list. -/
structure GuestChatMessage where
  id : String
  message : String
  response : String
  context_documents : Option String
  created_at : String
deriving Repr, DecidableEq

/-- An {id, filename} context-source descriptor returned by
generateAIResponse. -/
structure ContextSource where
  id : String
  filename : String
deriving Repr, DecidableEq

/-- One local-storage collection slot.  absent: the key is not set;
unreadable: localStorage.getItem throws; corrupt: the stored string makes
JSON.parse throw; stored: the parsed record list.  A stored string parsing
to a non-array value has no state here; see RawSlot. -/
inductive Slot (α : Type) where
  | absent
  | unreadable
  | corrupt
  | stored (items : List α)
deriving Repr, DecidableEq

/-- Reading a slot through the try/catch wrappers of guestService: the
absent key reads as [] (the stored-is-null branch), and both throwing
states read as [] through the catch. -/
def readSlot {α : Type} : Slot α → List α
  | .stored items => items
  | _ => []

/-- One local-storage collection slot at full fidelity: absent (key not
set), unreadable (getItem throws), parseFailing (JSON.parse throws on the
stored string), parsedArray (JSON.parse yields a record array), and
parsedNonArray (JSON.parse succeeds but yields a non-array value, e.g. the
stored string is an object or number literal). -/
inductive RawSlot (α : Type) where
  | absent
  | unreadable
  | parseFailing
  | parsedArray (items : List α)
  | parsedNonArray
deriving Repr, DecidableEq

/-- The JavaScript value returned by the read wrappers of guestService:
either an array of records (possibly the [] default or catch fallback) or
whatever non-array value JSON.parse produced, returned unchecked. -/
inductive JsValue (α : Type) where
  | arr (items : List α)
  | nonArrayValue
deriving Repr, DecidableEq

/-- Reading a raw slot exactly as the source does: the try block returns
stored ? JSON.parse(stored) : [], so an absent key reads as [], either
throwing state reads as [] through the catch, and a successful parse is
returned as-is whether or not it is an array. -/
def readRawSlot {α : Type} : RawSlot α → JsValue α
  | .absent => .arr []
  | .unreadable => .arr []
  | .parseFailing => .arr []
  | .parsedArray items => .arr items
  | .parsedNonArray => .nonArrayValue

/-- Abstraction of a raw slot into the coarse model used by the rest of
this development.  It is faithful on every state except parsedNonArray,
where the source surfaces the non-array value while the coarse model has
only the corrupt state; readRawSlot_agrees below is accordingly restricted
to the other states. -/
def rawToSlot {α : Type} : RawSlot α → Slot α
  | .absent => .absent
  | .unreadable => .unreadable
  | .parseFailing => .corrupt
  | .parsedArray items => .stored items
  | .parsedNonArray => .corrupt

/-- The guest-mode portion of browser local storage: the two collections,
the guestMode flag (the string "true" is modelled as true, an absent key as
false) and the guestModeLastActive timestamp in milliseconds. -/
structure Store where
  guestDocuments : Slot GuestDocument
  guestChatHistory : Slot GuestChatMessage
  guestMode : Bool
  guestModeLastActive : Option Nat
deriving Repr, DecidableEq

/-- The two collection slots at full fidelity, for the read-path analysis
of claim C5. -/
structure RawStore where
  guestDocuments : RawSlot GuestDocument
  guestChatHistory : RawSlot GuestChatMessage
deriving Repr, DecidableEq

/-- Storage with no guest keys set. -/
def emptyStore : Store :=
  { guestDocuments := .absent
    guestChatHistory := .absent
    guestMode := false
    guestModeLastActive := none }

/-- Decimal digit characters, used to model JavaScript number-to-string
conversion. -/
def digitOf (d : Nat) : Char :=
  (["0", "1", "2", "3", "4", "5", "6", "7", "8", "9"].getD d "*").front

/-- Least-significant-first decimal digits, with an explicit fuel so that
the recursion is structural and kernel-evaluable; digitsRev n n is the full
digit list of n (empty for 0). -/
def digitsRev : Nat → Nat → List Nat
  | 0, _ => []
  | fuel + 1, n => if n = 0 then [] else n % 10 :: digitsRev fuel (n / 10)

/-- Most-significant-first digit list of a natural number, with [0] for 0,
matching the decimal rendering of Number.prototype.toString. -/
def decimalDigits (n : Nat) : List Nat :=
  if n = 0 then [0] else (digitsRev n n).reverse

/-- Model of Date.now().toString(): decimal rendering of the millisecond
clock value. -/
def natDecimal (n : Nat) : String :=
  ⟨(decimalDigits n).map digitOf⟩

/-- Model of new Date(now).toISOString(): an injective rendering of the
clock value.  No claim inspects the exact ISO-8601 text, so the calendar
arithmetic is not reproduced. -/
def isoOfMillis (ms : Nat) : String :=
  "iso:" ++ natDecimal ms

namespace GuestService

/-- GuestService.getDocuments: parse the guestDocuments slot, returning []
on any storage or parse failure. -/
def getDocuments (st : Store) : List GuestDocument :=
  readSlot st.guestDocuments

/-- GuestService.getChatHistory: parse the guestChatHistory slot, returning
[] on any storage or parse failure. -/
def getChatHistory (st : Store) : List GuestChatMessage :=
  readSlot st.guestChatHistory

/-- GuestService.getDocuments at full fidelity: the value the JavaScript
function actually returns, including the unchecked relay of a successfully
parsed non-array value. -/
def getDocumentsRaw (st : RawStore) : JsValue GuestDocument :=
  readRawSlot st.guestDocuments

/-- GuestService.getChatHistory at full fidelity. -/
def getChatHistoryRaw (st : RawStore) : JsValue GuestChatMessage :=
  readRawSlot st.guestChatHistory

/-- The caller-supplied fields of saveDocument
(Omit GuestDocument id, created_at). -/
structure DocInput where
  filename : String
  file_type : String
  content : String
deriving Repr, DecidableEq

/-- The record built inside saveDocument: caller fields plus
id = Date.now().toString() and created_at = new Date().toISOString(). -/
def mkDocument (input : DocInput) (now : Nat) : GuestDocument :=
  { id := natDecimal now
    filename := input.filename
    file_type := input.file_type
    content := input.content
    created_at := isoOfMillis now }

/-- GuestService.saveDocument: read the collection, push the new record,
overwrite the slot with the serialized collection, return the record. -/
def saveDocument (input : DocInput) (now : Nat) (st : Store) :
    GuestDocument × Store :=
  let documents := getDocuments st
  let newDocument := mkDocument input now
  (newDocument,
   { st with guestDocuments := .stored (documents ++ [newDocument]) })

/-- GuestService.deleteDocument: filter out records with the given id and
overwrite the slot; returns whether the storage write succeeded (true, since
the modelled write does not throw), not whether a record existed. -/
def deleteDocument (documentId : String) (st : Store) : Bool × Store :=
  let documents := getDocuments st
  let filteredDocuments := documents.filter (fun doc => doc.id ≠ documentId)
  (true, { st with guestDocuments := .stored filteredDocuments })

/-- GuestService.getDocument: first record with the given id, or null. -/
def getDocument (documentId : String) (st : Store) : Option GuestDocument :=
  (getDocuments st).find? (fun doc => doc.id = documentId)

/-- The caller-supplied fields of saveChatMessage
(Omit GuestChatMessage id, created_at). -/
structure ChatInput where
  message : String
  response : String
  context_documents : Option String
deriving Repr, DecidableEq

/-- The record built inside saveChatMessage. -/
def mkChatMessage (input : ChatInput) (now : Nat) : GuestChatMessage :=
  { id := natDecimal now
    message := input.message
    response := input.response
    context_documents := input.context_documents
    created_at := isoOfMillis now }

/-- GuestService.saveChatMessage: read the history, push the new record,
overwrite the slot, return the record. -/
def saveChatMessage (input : ChatInput) (now : Nat) (st : Store) :
    GuestChatMessage × Store :=
  let history := getChatHistory st
  let newMessage := mkChatMessage input now
  (newMessage,
   { st with guestChatHistory := .stored (history ++ [newMessage]) })

/-- GuestService.clearAllData: remove both collections and the guestMode
flag.  Note the guestModeLastActive key is not removed by the source. -/
def clearAllData (st : Store) : Store :=
  { st with
    guestDocuments := .absent
    guestChatHistory := .absent
    guestMode := false }

/-- Semantics of JavaScript Array.prototype.join: empty list gives the
empty string, otherwise the elements separated by sep. -/
def joinSep (sep : String) : List String → String
  | [] => ""
  | [s] => s
  | s :: rest => s ++ sep ++ joinSep sep rest

/-- The per-document block built inside generateAIResponse:
a header line naming the file, a newline, then the full content. -/
def documentBlock (doc : GuestDocument) : String :=
  "--- Document: " ++ doc.filename ++ " ---\n" ++ doc.content

/-- The context-assembly front half of GuestService.generateAIResponse
(lines 90-102 of guestService.ts): the context string and the source list
sent to the backend, as a function of the two mode arguments and the
document collection read from storage. -/
def assembleContext (selectedDocuments : Option (List String))
    (useAllDocuments : Bool) (allDocs : List GuestDocument) :
    String × List ContextSource :=
  if useAllDocuments then
    (joinSep "\n\n" (allDocs.map documentBlock),
     allDocs.map (fun doc => ⟨doc.id, doc.filename⟩))
  else
    match selectedDocuments with
    | some sel =>
      if 0 < sel.length then
        let selectedDocs := allDocs.filter (fun doc => sel.contains doc.id)
        (joinSep "\n\n" (selectedDocs.map documentBlock),
         selectedDocs.map (fun doc => ⟨doc.id, doc.filename⟩))
      else ("", [])
    | none => ("", [])

/-- The apologetic fallback response built in the catch branch of
generateAIResponse, with the stringified error appended. -/
def errorFallback (error : String) : String :=
  "I apologize, but I encountered an error while processing your request: "
    ++ error

/-- The record resolved by GuestService.generateAIResponse. -/
structure AIResult where
  response : String
  context_used : Bool
  context_sources : List ContextSource
deriving Repr, DecidableEq

/-- GuestService.generateAIResponse: assemble the context, call the backend
(modelled as an oracle), and either relay its response together with the
assembled sources or, when anything inside the try block failed, return the
apologetic fallback with no sources. -/
def generateAIResponse (selectedDocuments : Option (List String))
    (useAllDocuments : Bool) (backend : Except String String) (st : Store) :
    AIResult :=
  let assembled := assembleContext selectedDocuments useAllDocuments
    (getDocuments st)
  match backend with
  | .ok responseText =>
    { response := responseText
      context_used := 0 < assembled.snd.length
      context_sources := assembled.snd }
  | .error e =>
    { response := errorFallback e
      context_used := false
      context_sources := [] }

/-- Model of JSON.stringify on a context-source list, as serialized into
context_documents by handleSendMessage.  String escaping is not modelled;
no claim inspects the exact serialized text. -/
def serializeSources (sources : List ContextSource) : String :=
  "[" ++ joinSep ","
    (sources.map (fun s =>
      "\x7b\"id\":\"" ++ s.id ++ "\",\"filename\":\"" ++ s.filename
        ++ "\"\x7d")) ++ "]"

/-- Model of JSON.stringify on the document collection, used only for the
byte-count estimate of getStorageInfo. -/
def serializeDocuments (docs : List GuestDocument) : String :=
  "[" ++ joinSep ","
    (docs.map (fun d =>
      "\x7b\"id\":\"" ++ d.id ++ "\",\"filename\":\"" ++ d.filename
        ++ "\",\"file_type\":\"" ++ d.file_type ++ "\",\"content\":\""
        ++ d.content ++ "\",\"created_at\":\"" ++ d.created_at
        ++ "\"\x7d")) ++ "]"

/-- Model of JSON.stringify on the chat history, used only for the
byte-count estimate of getStorageInfo. -/
def serializeChatHistory (history : List GuestChatMessage) : String :=
  "[" ++ joinSep ","
    (history.map (fun m =>
      "\x7b\"id\":\"" ++ m.id ++ "\",\"message\":\"" ++ m.message
        ++ "\",\"response\":\"" ++ m.response
        ++ (match m.context_documents with
            | some cd => "\",\"context_documents\":\"" ++ cd
            | none => "")
        ++ "\",\"created_at\":\"" ++ m.created_at ++ "\"\x7d")) ++ "]"

/-- The unit-scaling conditional of GuestService.getStorageInfo: bytes below
1024, otherwise KB below 1024 * 1024, otherwise MB, with the KB and MB
figures rendered by toFixed(1).  toFixed(1) on an exact binary value picks
the closest multiple of one tenth, ties upward, which on totalBytes / 1024
and totalBytes / 1048576 (both exact in double precision) is the natural
rounding (10 * num + den / 2) / den. -/
def formatBytes (totalBytes : Nat) : String :=
  if totalBytes < 1024 then
    toString totalBytes ++ " bytes"
  else if totalBytes < 1024 * 1024 then
    let scaled := (10 * totalBytes + 1024 / 2) / 1024
    toString (scaled / 10) ++ "." ++ toString (scaled % 10) ++ " KB"
  else
    let scaled := (10 * totalBytes + 1024 * 1024 / 2) / (1024 * 1024)
    toString (scaled / 10) ++ "." ++ toString (scaled % 10) ++ " MB"

/-- The combined serialized size measured by getStorageInfo. -/
def totalSerializedBytes (st : Store) : Nat :=
  (serializeDocuments (getDocuments st)).length
    + (serializeChatHistory (getChatHistory st)).length

/-- The record returned by GuestService.getStorageInfo. -/
structure StorageInfo where
  documentsCount : Nat
  chatMessagesCount : Nat
  estimatedSize : String
deriving Repr, DecidableEq

/-- GuestService.getStorageInfo: counts of both collections plus the
human-readable size estimate. -/
def getStorageInfo (st : Store) : StorageInfo :=
  { documentsCount := (getDocuments st).length
    chatMessagesCount := (getChatHistory st).length
    estimatedSize := formatBytes (totalSerializedBytes st) }

end GuestService

/-- The hidden branch of the visibilitychange listener: while guest mode is
active, record the current time under guestModeLastActive. -/
def onVisibilityHidden (now : Nat) (st : Store) : Store :=
  if st.guestMode then { st with guestModeLastActive := some (now) } else st

/-- The visible branch of the visibilitychange listener: if guest mode is
active and a last-hidden timestamp exists and more than 30 minutes have
elapsed, clear all guest data and reload.  The returned flag records
whether window.location.reload was invoked. -/
def onVisibilityVisible (now : Nat) (st : Store) : Store × Bool :=
  if st.guestMode then
    match st.guestModeLastActive with
    | some lastActive =>
      if 30 * 60 * 1000 < now - lastActive then
        (GuestService.clearAllData st, true)
      else (st, false)
    | none => (st, false)
  else (st, false)

/-- The unload branch of the beforeunload listener: clear all guest data
when guest mode is active. -/
def onBeforeUnload (st : Store) : Store :=
  if st.guestMode then GuestService.clearAllData st else st

/-- The context-mode radio state of the dashboard page. -/
inductive ContextMode where
  | noContext
  | selected
  | all
deriving Repr, DecidableEq

/-- The guest-mode branch of handleSendMessage in the dashboard page:
translate the context mode into the two arguments of generateAIResponse,
await the resolved AIResult, then persist the message with the resolved
response via saveChatMessage, serializing the source list into
context_documents when any sources were used. -/
def handleSendMessage (userMessage : String) (contextMode : ContextMode)
    (selectedDocuments : List String) (backend : Except String String)
    (now : Nat) (st : Store) : GuestChatMessage × Store :=
  let useSelectedDocs :=
    if contextMode = ContextMode.selected then some selectedDocuments
    else none
  let useAllDocs := contextMode = ContextMode.all
  let r := GuestService.generateAIResponse useSelectedDocs useAllDocs
    backend st
  GuestService.saveChatMessage
    { message := userMessage
      response := r.response
      context_documents :=
        if 0 < r.context_sources.length then
          some (GuestService.serializeSources r.context_sources)
        else none } now st

/-- Modelled from the spec (section 4.2), for the refinement statement of
claims C3 and C4: iterate the documents in stored order, appending for each
a delimited block (header line plus content), blocks separated by a blank
line. -/
def specAppendBlock (acc : String) (doc : GuestDocument) : String :=
  if acc = "" then GuestService.documentBlock doc
  else acc ++ "\n\n" ++ GuestService.documentBlock doc

/-- Modelled from the spec (section 4.2): the context blob accumulated over
the collection in stored order. -/
def specContextBlob (docs : List GuestDocument) : String :=
  docs.foldl specAppendBlock ""

/-- Modelled from the spec (section 4.2): sources accumulated in the same
order as the blocks. -/
def specSources (docs : List GuestDocument) : List ContextSource :=
  docs.map (fun doc => ⟨doc.id, doc.filename⟩)

/-- Modelled from the spec (section 8, claim C8): the quotient rendered to
one decimal place, over exact rational arithmetic, ties rounded upward as
toFixed does. -/
def ratToFixed1 (q : ℚ) : String :=
  let m : ℕ := ⌊10 * q + 1 / 2⌋₊
  toString (m / 10) ++ "." ++ toString (m % 10)

/-- Value of a least-significant-first decimal digit list, used to show the
digit rendering of the id generator is injective. -/
def ofDigitsLSB : List Nat → Nat
  | [] => 0
  | d :: ds => d + 10 * ofDigitsLSB ds

/-- A sequence of saveDocument calls, each observing its own clock value,
folded over the store. -/
def saveDocumentsSeq (inputs : List (GuestService.DocInput × Nat))
    (st : Store) : Store :=
  inputs.foldl (fun s p => (GuestService.saveDocument p.fst p.snd s).snd) st

section StoreTheorems

open GuestService

/-- On every raw slot state except parsedNonArray, reading at full
fidelity yields exactly the list the coarse model reads, so the coarse
Slot model used by the other claims is faithful there. -/
theorem readRawSlot_agrees {α : Type} (raw : RawSlot α)
    (h : raw ≠ RawSlot.parsedNonArray) :
    readRawSlot raw = JsValue.arr (readSlot (rawToSlot raw)) := by
  cases raw with
  | absent => rfl
  | unreadable => rfl
  | parseFailing => rfl
  | parsedArray items => rfl
  | parsedNonArray => exact absurd rfl h

/-- C5 counterexample: a slot whose stored string is valid JSON but not a
Document array (for instance an object literal) is relayed by getDocuments
and getChatHistory as that parsed non-array value — the catch never fires —
not as an empty sequence, so the claim fails as stated at this storage
state. -/
theorem c5_counterexample_parsed_non_array :
    getDocumentsRaw ⟨RawSlot.parsedNonArray, RawSlot.parsedNonArray⟩
        = JsValue.nonArrayValue
    ∧ getDocumentsRaw ⟨RawSlot.parsedNonArray, RawSlot.parsedNonArray⟩
        ≠ JsValue.arr []
    ∧ getChatHistoryRaw ⟨RawSlot.parsedNonArray, RawSlot.parsedNonArray⟩
        ≠ JsValue.arr [] := by
  refine ⟨rfl, ?_, ?_⟩ <;> simp [getDocumentsRaw, getChatHistoryRaw,
    readRawSlot]

/-- C5 (amended): getDocuments and getChatHistory never throw; an absent
key, an unreadable store, and a stored value on which JSON.parse throws all
read as the empty sequence, and a successfully parsed array is returned as
parsed; but a stored value that parses successfully to a non-array is
returned as that non-array value, never as an empty sequence. -/
theorem c5_reads_never_fail (st : RawStore) :
    (st.guestDocuments = RawSlot.absent
        ∨ st.guestDocuments = RawSlot.unreadable
        ∨ st.guestDocuments = RawSlot.parseFailing →
      getDocumentsRaw st = JsValue.arr [])
    ∧ (∀ items, st.guestDocuments = RawSlot.parsedArray items →
      getDocumentsRaw st = JsValue.arr items)
    ∧ (st.guestDocuments = RawSlot.parsedNonArray →
      getDocumentsRaw st = JsValue.nonArrayValue
        ∧ ∀ items, getDocumentsRaw st ≠ JsValue.arr items)
    ∧ (st.guestChatHistory = RawSlot.absent
        ∨ st.guestChatHistory = RawSlot.unreadable
        ∨ st.guestChatHistory = RawSlot.parseFailing →
      getChatHistoryRaw st = JsValue.arr [])
    ∧ (∀ items, st.guestChatHistory = RawSlot.parsedArray items →
      getChatHistoryRaw st = JsValue.arr items)
    ∧ (st.guestChatHistory = RawSlot.parsedNonArray →
      getChatHistoryRaw st = JsValue.nonArrayValue
        ∧ ∀ items, getChatHistoryRaw st ≠ JsValue.arr items) := by
  refine ⟨?_, ?_, ?_, ?_, ?_, ?_⟩
  · intro h
    rcases h with h | h | h <;> simp [getDocumentsRaw, readRawSlot, h]
  · intro items h
    simp [getDocumentsRaw, readRawSlot, h]
  · intro h
    refine ⟨by simp [getDocumentsRaw, readRawSlot, h], fun items => ?_⟩
    simp [getDocumentsRaw, readRawSlot, h]
  · intro h
    rcases h with h | h | h <;> simp [getChatHistoryRaw, readRawSlot, h]
  · intro items h
    simp [getChatHistoryRaw, readRawSlot, h]
  · intro h
    refine ⟨by simp [getChatHistoryRaw, readRawSlot, h], fun items => ?_⟩
    simp [getChatHistoryRaw, readRawSlot, h]

/-- Witness for C5 (amended) at concrete raw stores covering the
catch-fallback, the parsed-array and the parsed-non-array states. -/
theorem c5_reads_never_fail_witness :
    getDocumentsRaw ⟨RawSlot.parseFailing, RawSlot.unreadable⟩
        = JsValue.arr []
    ∧ getChatHistoryRaw ⟨RawSlot.parseFailing, RawSlot.unreadable⟩
        = JsValue.arr []
    ∧ getDocumentsRaw
        ⟨RawSlot.parsedArray [⟨"1", "a.txt", "text/plain", "x", "iso:1"⟩],
         RawSlot.parsedNonArray⟩
        = JsValue.arr [⟨"1", "a.txt", "text/plain", "x", "iso:1"⟩]
    ∧ getChatHistoryRaw
        ⟨RawSlot.parsedArray [⟨"1", "a.txt", "text/plain", "x", "iso:1"⟩],
         RawSlot.parsedNonArray⟩
        = JsValue.nonArrayValue :=
  ⟨(c5_reads_never_fail ⟨RawSlot.parseFailing, RawSlot.unreadable⟩).1
      (Or.inr (Or.inr rfl)),
   (c5_reads_never_fail ⟨RawSlot.parseFailing, RawSlot.unreadable⟩).2.2.2.1
      (Or.inr (Or.inl rfl)),
   (c5_reads_never_fail
      ⟨RawSlot.parsedArray [⟨"1", "a.txt", "text/plain", "x", "iso:1"⟩],
       RawSlot.parsedNonArray⟩).2.1 _ rfl,
   ((c5_reads_never_fail
      ⟨RawSlot.parsedArray [⟨"1", "a.txt", "text/plain", "x", "iso:1"⟩],
       RawSlot.parsedNonArray⟩).2.2.2.2.2 rfl).1⟩

/-- C7: deleteDocument on an id absent from the collection reports success
(the modelled storage write succeeds) and leaves the persisted collection
unchanged. -/
theorem c7_delete_missing_id_noop (st : Store) (documentId : String)
    (h : documentId ∉ (getDocuments st).map (fun doc => doc.id)) :
    (deleteDocument documentId st).fst = true
    ∧ getDocuments (deleteDocument documentId st).snd = getDocuments st := by
  refine ⟨rfl, ?_⟩
  show List.filter _ (getDocuments st) = getDocuments st
  rw [List.filter_eq_self]
  intro doc hdoc
  simp only [decide_eq_true_eq]
  intro hid
  exact h (hid ▸ List.mem_map_of_mem (fun d => d.id) hdoc)

/-- Witness for C7: deleting the unknown id "9" from a one-document store. -/
theorem c7_delete_missing_id_noop_witness :
    let doc : GuestDocument := ⟨"1", "a.txt", "text/plain", "x", "iso:1"⟩
    let st : Store := ⟨Slot.stored [doc], Slot.absent, true, none⟩
    (deleteDocument "9" st).fst = true
    ∧ getDocuments (deleteDocument "9" st).snd = getDocuments st :=
  c7_delete_missing_id_noop _ "9" (by decide)

/-- C9: the two collections are independent under mutation: saveDocument and
deleteDocument leave the chat slot (and the lifecycle keys) unchanged, and
saveChatMessage leaves the document slot (and the lifecycle keys)
unchanged. -/
theorem c9_collections_independent (st : Store) (input : DocInput)
    (cinput : ChatInput) (documentId : String) (now : Nat) :
    ((saveDocument input now st).snd.guestChatHistory = st.guestChatHistory
      ∧ (saveDocument input now st).snd.guestMode = st.guestMode
      ∧ (saveDocument input now st).snd.guestModeLastActive
          = st.guestModeLastActive)
    ∧ ((deleteDocument documentId st).snd.guestChatHistory
          = st.guestChatHistory
      ∧ (deleteDocument documentId st).snd.guestMode = st.guestMode
      ∧ (deleteDocument documentId st).snd.guestModeLastActive
          = st.guestModeLastActive)
    ∧ ((saveChatMessage cinput now st).snd.guestDocuments
          = st.guestDocuments
      ∧ (saveChatMessage cinput now st).snd.guestMode = st.guestMode
      ∧ (saveChatMessage cinput now st).snd.guestModeLastActive
          = st.guestModeLastActive) :=
  ⟨⟨rfl, rfl, rfl⟩, ⟨rfl, rfl, rfl⟩, ⟨rfl, rfl, rfl⟩⟩

/-- C10: deleteDocument removes every record carrying the given id, keeps
exactly the records with a different id in their stored relative order, and
afterwards getDocument on that id is absent. -/
theorem c10_delete_removes_all_occurrences (st : Store)
    (documentId : String) :
    getDocuments (deleteDocument documentId st).snd
        = (getDocuments st).filter (fun doc => doc.id ≠ documentId)
    ∧ (∀ doc ∈ getDocuments (deleteDocument documentId st).snd,
        doc.id ≠ documentId)
    ∧ List.Sublist (getDocuments (deleteDocument documentId st).snd)
        (getDocuments st)
    ∧ getDocument documentId (deleteDocument documentId st).snd = none := by
  refine ⟨rfl, ?_, ?_, ?_⟩
  · intro doc hdoc
    have := (List.mem_filter.mp hdoc).2
    simpa using this
  · exact List.filter_sublist _
  · show List.find? _ (List.filter _ _) = none
    rw [List.find?_eq_none]
    intro doc hdoc
    have := (List.mem_filter.mp hdoc).2
    simp only [decide_eq_true_eq] at this ⊢
    exact this

/-- Witness for C10 on a store holding two records with the deleted id
(a duplicated id) and one with another id. -/
theorem c10_delete_removes_all_occurrences_witness :
    let d1 : GuestDocument := ⟨"5", "a.txt", "text/plain", "x", "iso:5"⟩
    let d2 : GuestDocument := ⟨"7", "b.txt", "text/plain", "y", "iso:7"⟩
    let d3 : GuestDocument := ⟨"5", "c.txt", "text/plain", "z", "iso:5"⟩
    let st : Store := ⟨Slot.stored [d1, d2, d3], Slot.absent, true, none⟩
    getDocuments (deleteDocument "5" st).snd = [d2]
    ∧ getDocument "5" (deleteDocument "5" st).snd = none := by
  intro d1 d2 d3 st
  refine ⟨?_, (c10_delete_removes_all_occurrences st "5").2.2.2⟩
  have h := (c10_delete_removes_all_occurrences st "5").1
  rw [h]
  decide

end StoreTheorems

section ContextTheorems

open GuestService

theorem append_ne_empty_right (s t : String) (h : t ≠ "") : s ++ t ≠ "" := by
  intro he
  apply h
  have hd : s.data ++ t.data = [] := by
    have := congrArg String.data he
    rwa [String.data_append] at this
  have ht : t.data = [] := (List.append_eq_nil.mp hd).2
  cases t
  simp_all

theorem append_ne_empty_left (s t : String) (h : s ≠ "") : s ++ t ≠ "" := by
  intro he
  apply h
  have hd : s.data ++ t.data = [] := by
    have := congrArg String.data he
    rwa [String.data_append] at this
  have hs : s.data = [] := (List.append_eq_nil.mp hd).1
  cases s
  simp_all

theorem documentBlock_ne_empty (doc : GuestDocument) :
    documentBlock doc ≠ "" :=
  append_ne_empty_left _ _
    (append_ne_empty_right _ _ (by decide))

theorem joinSep_cons (sep s : String) (rest : List String) (h : rest ≠ []) :
    joinSep sep (s :: rest) = s ++ sep ++ joinSep sep rest := by
  cases rest with
  | nil => exact absurd rfl h
  | cons r rs => rfl

theorem joinSep_shift (sep a b : String) (l : List String) :
    joinSep sep ((a ++ sep ++ b) :: l) = a ++ sep ++ joinSep sep (b :: l) := by
  cases l with
  | nil => rfl
  | cons c cs => simp [joinSep, String.append_assoc]

theorem foldl_specAppendBlock (docs : List GuestDocument) :
    ∀ acc : String, acc ≠ "" →
      List.foldl specAppendBlock acc docs
        = joinSep "\n\n" (acc :: docs.map documentBlock) := by
  induction docs with
  | nil => intro acc _; rfl
  | cons d ds ih =>
    intro acc h
    show List.foldl specAppendBlock (specAppendBlock acc d) ds = _
    have hne : acc ++ "\n\n" ++ documentBlock d ≠ "" :=
      append_ne_empty_left _ _ (append_ne_empty_right _ _ (by decide))
    have hstep : specAppendBlock acc d = acc ++ "\n\n" ++ documentBlock d := by
      simp only [specAppendBlock, if_neg h]
    rw [hstep, ih _ hne, joinSep_shift, List.map_cons,
      joinSep_cons "\n\n" acc (documentBlock d :: List.map documentBlock ds)
        (by simp)]

/-- The spec-modelled accumulation agrees with the join of the per-document
blocks computed by the source. -/
theorem specContextBlob_eq_joinSep (docs : List GuestDocument) :
    specContextBlob docs = joinSep "\n\n" (docs.map documentBlock) := by
  cases docs with
  | nil => rfl
  | cons d ds =>
    show List.foldl specAppendBlock (specAppendBlock "" d) ds = _
    have h1 : specAppendBlock "" d = documentBlock d := by
      simp [specAppendBlock]
    rw [h1, foldl_specAppendBlock ds _ (documentBlock_ne_empty d),
      List.map_cons]

theorem content_in_joinSep (docs : List GuestDocument) (d : GuestDocument)
    (hd : d ∈ docs) :
    ∃ pre post : String,
      joinSep "\n\n" (docs.map documentBlock) = pre ++ d.content ++ post := by
  induction docs with
  | nil => cases hd
  | cons d' ds ih =>
    rcases List.mem_cons.mp hd with h | h
    · subst h
      cases ds with
      | nil =>
        refine ⟨"--- Document: " ++ d.filename ++ " ---\n", "", ?_⟩
        show documentBlock d = _
        simp [documentBlock, String.append_assoc]
      | cons e es =>
        refine ⟨"--- Document: " ++ d.filename ++ " ---\n",
          "\n\n" ++ joinSep "\n\n" ((e :: es).map documentBlock), ?_⟩
        rw [List.map_cons, joinSep_cons _ _ _ (by simp)]
        simp [documentBlock, String.append_assoc]
    · obtain ⟨pre, post, hpp⟩ := ih h
      have hne : ds ≠ [] := by
        intro hnil
        rw [hnil] at h
        cases h
      refine ⟨documentBlock d' ++ "\n\n" ++ pre, post, ?_⟩
      rw [List.map_cons, joinSep_cons _ _ _ (by simpa using hne), hpp]
      simp [String.append_assoc]

/-- C3: in all mode the assembled context equals the spec-modelled blob
(every stored document contributes exactly one header-plus-content block, in
stored order, blocks separated by a blank line), the source list is the
{id, filename} projection in the same order, each stored content occurs in
the blob, and generateAIResponse relays exactly these sources on a
successful call. -/
theorem c3_all_mode_context (sel : Option (List String))
    (docs : List GuestDocument) (st : Store) (reply : String) :
    assembleContext sel true docs = (specContextBlob docs, specSources docs)
    ∧ (∀ d ∈ docs, ∃ pre post : String,
        (assembleContext sel true docs).fst = pre ++ d.content ++ post)
    ∧ (generateAIResponse sel true (Except.ok reply) st).context_sources
        = specSources (getDocuments st) := by
  have hfst : assembleContext sel true docs
      = (joinSep "\n\n" (docs.map documentBlock), specSources docs) := rfl
  refine ⟨?_, ?_, rfl⟩
  · rw [hfst, specContextBlob_eq_joinSep]
  · intro d hd
    rw [hfst]
    exact content_in_joinSep docs d hd

/-- Witness for C3 on a concrete two-document collection. -/
theorem c3_all_mode_context_witness :
    let dA : GuestDocument := ⟨"1", "a.txt", "text/plain", "xx", "iso:1"⟩
    let dB : GuestDocument := ⟨"2", "b.txt", "text/plain", "yy", "iso:2"⟩
    assembleContext none true [dA, dB]
        = (specContextBlob [dA, dB], specSources [dA, dB])
    ∧ ∃ pre post : String,
        (assembleContext none true [dA, dB]).fst = pre ++ "xx" ++ post := by
  intro dA dB
  exact ⟨(c3_all_mode_context none [dA, dB] emptyStore "r").1,
    (c3_all_mode_context none [dA, dB] emptyStore "r").2.1 dA (by decide)⟩

/-- C4: in selected mode with id set sel the assembled context is the
spec-modelled blob of exactly the stored documents whose id lies in sel, in
stored order (the filtered collection is a sublist of the stored one), and
the empty selection yields an empty blob and empty source list. -/
theorem c4_selected_mode_context (sel : List String)
    (docs : List GuestDocument) :
    assembleContext (some sel) false docs
        = (specContextBlob (docs.filter (fun doc => sel.contains doc.id)),
           specSources (docs.filter (fun doc => sel.contains doc.id)))
    ∧ (∀ d : GuestDocument,
        d ∈ docs.filter (fun doc => sel.contains doc.id)
          ↔ d ∈ docs ∧ d.id ∈ sel)
    ∧ List.Sublist (docs.filter (fun doc => sel.contains doc.id)) docs
    ∧ assembleContext (some []) false docs = ("", []) := by
  refine ⟨?_, ?_, List.filter_sublist _, rfl⟩
  · cases sel with
    | nil =>
      have : docs.filter (fun doc => List.contains [] doc.id) = [] := by
        simp
      rw [this]
      rfl
    | cons a as =>
      have hpos : 0 < (a :: as).length := by simp
      show (if 0 < (a :: as).length then _ else _) = _
      rw [if_pos hpos, specContextBlob_eq_joinSep]
      rfl
  · intro d
    simp [List.mem_filter]

/-- Witness for C4: selecting only id "2" out of a two-document collection
keeps exactly the matching document. -/
theorem c4_selected_mode_context_witness :
    let dA : GuestDocument := ⟨"1", "a.txt", "text/plain", "xx", "iso:1"⟩
    let dB : GuestDocument := ⟨"2", "b.txt", "text/plain", "yy", "iso:2"⟩
    assembleContext (some ["2"]) false [dA, dB]
        = (specContextBlob [dB], specSources [dB])
    ∧ (dB ∈ [dA, dB].filter (fun doc => List.contains ["2"] doc.id)
        ↔ dB ∈ [dA, dB] ∧ dB.id ∈ ["2"])
    ∧ assembleContext (some []) false [dA, dB] = ("", []) := by
  intro dA dB
  refine ⟨?_, (c4_selected_mode_context ["2"] [dA, dB]).2.1 dB,
    (c4_selected_mode_context ["2"] [dA, dB]).2.2.2⟩
  have h := (c4_selected_mode_context ["2"] [dA, dB]).1
  have hf : [dA, dB].filter (fun doc => List.contains ["2"] doc.id)
      = [dB] := by decide
  rw [hf] at h
  exact h

end ContextTheorems

section DecimalTheorems

theorem ofDigitsLSB_digitsRev :
    ∀ (fuel n : Nat), n ≤ fuel → ofDigitsLSB (digitsRev fuel n) = n := by
  intro fuel
  induction fuel with
  | zero =>
    intro n hn
    interval_cases n
    rfl
  | succ fuel ih =>
    intro n hn
    by_cases h0 : n = 0
    · subst h0
      rfl
    · have hrec : digitsRev (fuel + 1) n = n % 10 :: digitsRev fuel (n / 10) := by
        simp [digitsRev, h0]
      have hdiv : n / 10 ≤ fuel := by
        have hlt : n / 10 < n := Nat.div_lt_self (Nat.pos_of_ne_zero h0)
          (by norm_num)
        omega
      rw [hrec]
      show n % 10 + 10 * ofDigitsLSB (digitsRev fuel (n / 10)) = n
      rw [ih _ hdiv, Nat.mod_add_div]

theorem digitsRev_lt :
    ∀ (fuel n d : Nat), d ∈ digitsRev fuel n → d < 10 := by
  intro fuel
  induction fuel with
  | zero => intro n d hd; cases hd
  | succ fuel ih =>
    intro n d hd
    by_cases h0 : n = 0
    · rw [h0] at hd
      cases hd
    · rw [show digitsRev (fuel + 1) n = n % 10 :: digitsRev fuel (n / 10)
        from by simp [digitsRev, h0]] at hd
      rcases List.mem_cons.mp hd with h | h
      · rw [h]
        exact Nat.mod_lt _ (by norm_num)
      · exact ih _ _ h

theorem decimalDigits_lt (n d : Nat) (hd : d ∈ decimalDigits n) : d < 10 := by
  unfold decimalDigits at hd
  by_cases h0 : n = 0
  · rw [if_pos h0] at hd
    simp at hd
    rw [hd]
    norm_num
  · rw [if_neg h0] at hd
    exact digitsRev_lt n n d (List.mem_reverse.mp hd)

theorem decimalDigits_injective : Function.Injective decimalDigits := by
  intro m n h
  unfold decimalDigits at h
  by_cases hm : m = 0 <;> by_cases hn : n = 0
  · rw [hm, hn]
  · rw [if_pos hm, if_neg hn] at h
    have hrev : digitsRev n n = [0] := by
      have := congrArg List.reverse h
      simpa using this.symm
    have := ofDigitsLSB_digitsRev n n le_rfl
    rw [hrev] at this
    simp [ofDigitsLSB] at this
    exact absurd this.symm hn
  · rw [if_neg hm, if_pos hn] at h
    have hrev : digitsRev m m = [0] := by
      have := congrArg List.reverse h
      simpa using this
    have := ofDigitsLSB_digitsRev m m le_rfl
    rw [hrev] at this
    simp [ofDigitsLSB] at this
    exact absurd this.symm hm
  · rw [if_neg hm, if_neg hn] at h
    have hrev : digitsRev m m = digitsRev n n := by
      have := congrArg List.reverse h
      simpa using this
    have h1 := ofDigitsLSB_digitsRev m m le_rfl
    have h2 := ofDigitsLSB_digitsRev n n le_rfl
    rw [← h1, ← h2, hrev]

theorem digitOf_inj_below :
    ∀ a < 10, ∀ b < 10, digitOf a = digitOf b → a = b := by decide

theorem map_digitOf_inj :
    ∀ (l₁ l₂ : List Nat), (∀ x ∈ l₁, x < 10) → (∀ x ∈ l₂, x < 10) →
      l₁.map digitOf = l₂.map digitOf → l₁ = l₂ := by
  intro l₁
  induction l₁ with
  | nil =>
    intro l₂ _ _ h
    cases l₂ with
    | nil => rfl
    | cons b bs => simp at h
  | cons a as ih =>
    intro l₂ h₁ h₂ h
    cases l₂ with
    | nil => simp at h
    | cons b bs =>
      simp only [List.map_cons, List.cons.injEq] at h
      have ha : a = b :=
        digitOf_inj_below a (h₁ a (by simp)) b (h₂ b (by simp)) h.1
      have hs : as = bs :=
        ih bs (fun x hx => h₁ x (by simp [hx]))
          (fun x hx => h₂ x (by simp [hx])) h.2
      rw [ha, hs]

theorem natDecimal_injective : Function.Injective natDecimal := by
  intro m n h
  have hdata : (decimalDigits m).map digitOf = (decimalDigits n).map digitOf :=
    congrArg String.data h
  exact decimalDigits_injective
    (map_digitOf_inj _ _ (fun x hx => decimalDigits_lt m x hx)
      (fun x hx => decimalDigits_lt n x hx) hdata)

end DecimalTheorems

section SequenceTheorems

open GuestService

theorem getDocuments_saveDocument (input : DocInput) (now : Nat)
    (st : Store) :
    getDocuments (saveDocument input now st).snd
      = getDocuments st ++ [mkDocument input now] := rfl

theorem getDocuments_saveDocumentsSeq :
    ∀ (inputs : List (DocInput × Nat)) (st : Store),
      getDocuments (saveDocumentsSeq inputs st)
        = getDocuments st
          ++ inputs.map (fun p => mkDocument p.fst p.snd) := by
  intro inputs
  induction inputs with
  | nil => intro st; simp [saveDocumentsSeq]
  | cons p ps ih =>
    intro st
    show getDocuments (saveDocumentsSeq ps (saveDocument p.fst p.snd st).snd)
        = _
    rw [ih, getDocuments_saveDocument]
    simp

/-- C2 counterexample: two saveDocument calls observing the same
millisecond clock value (Date.now() has millisecond resolution and is not
strictly monotone across calls) produce two records with the identical
id "5"; the ids of the resulting collection are not pairwise distinct. -/
theorem c2_counterexample_duplicate_ids :
    ((getDocuments (saveDocumentsSeq
        [(⟨"a.txt", "text/plain", "x"⟩, 5), (⟨"b.txt", "text/plain", "y"⟩, 5)]
        emptyStore)).map (fun doc => doc.id)) = ["5", "5"]
    ∧ ¬ ((getDocuments (saveDocumentsSeq
        [(⟨"a.txt", "text/plain", "x"⟩, 5), (⟨"b.txt", "text/plain", "y"⟩, 5)]
        emptyStore)).map (fun doc => doc.id)).Nodup := by
  constructor
  · decide
  · decide

/-- C2 (amended): for every sequence of saveDocument calls starting from
empty storage, getDocuments returns exactly the created records in
insertion order; and when the clock values observed by the calls are
pairwise distinct, the ids of the resulting collection are pairwise
distinct. -/
theorem c2_insertion_order_and_unique_ids
    (inputs : List (DocInput × Nat)) :
    getDocuments (saveDocumentsSeq inputs emptyStore)
        = inputs.map (fun p => mkDocument p.fst p.snd)
    ∧ ((inputs.map Prod.snd).Nodup →
        ((getDocuments (saveDocumentsSeq inputs emptyStore)).map
          (fun doc => doc.id)).Nodup) := by
  have horder : getDocuments (saveDocumentsSeq inputs emptyStore)
      = inputs.map (fun p => mkDocument p.fst p.snd) := by
    rw [getDocuments_saveDocumentsSeq]
    rfl
  refine ⟨horder, fun hnodup => ?_⟩
  rw [horder, List.map_map]
  have hids : ((fun doc => doc.id) ∘ fun p : DocInput × Nat =>
      mkDocument p.fst p.snd) = natDecimal ∘ Prod.snd := rfl
  rw [hids, ← List.map_map]
  exact hnodup.map natDecimal_injective

/-- Witness for C2 (amended) on two calls with distinct clock values. -/
theorem c2_insertion_order_and_unique_ids_witness :
    getDocuments (saveDocumentsSeq
        [(⟨"a.txt", "text/plain", "x"⟩, 5), (⟨"b.txt", "text/plain", "y"⟩, 6)]
        emptyStore)
      = [mkDocument ⟨"a.txt", "text/plain", "x"⟩ 5,
         mkDocument ⟨"b.txt", "text/plain", "y"⟩ 6]
    ∧ ((getDocuments (saveDocumentsSeq
        [(⟨"a.txt", "text/plain", "x"⟩, 5), (⟨"b.txt", "text/plain", "y"⟩, 6)]
        emptyStore)).map (fun doc => doc.id)).Nodup :=
  ⟨(c2_insertion_order_and_unique_ids _).1,
   (c2_insertion_order_and_unique_ids _).2 (by decide)⟩

end SequenceTheorems

section SendMessageTheorems

open GuestService

/-- C1 counterexample: when the backend call succeeds but returns the empty
string as its response, handleSendMessage persists a ChatMessage whose
response field is empty, so the claimed non-emptiness invariant fails as
stated. -/
theorem c1_counterexample_empty_backend_response :
    (handleSendMessage "hi" ContextMode.noContext [] (Except.ok "") 5
        emptyStore).fst.response = ""
    ∧ getChatHistory (handleSendMessage "hi" ContextMode.noContext []
        (Except.ok "") 5 emptyStore).snd
      = [(handleSendMessage "hi" ContextMode.noContext [] (Except.ok "") 5
        emptyStore).fst] := by
  exact ⟨rfl, rfl⟩

/-- C1 (amended): every run of the send-message operation appends exactly
one message to the guest chat history, carrying the user text and, as its
response, the value already resolved from the backend call: the backend
response verbatim on success, the apologetic fallback text on failure; the
fallback is never empty, so whenever the backend response is non-empty
(in particular on every failed call) the persisted response is
non-empty. -/
theorem c1_persisted_response (userMessage : String) (mode : ContextMode)
    (sel : List String) (backend : Except String String) (now : Nat)
    (st : Store) :
    getChatHistory (handleSendMessage userMessage mode sel backend now
        st).snd
      = getChatHistory st
        ++ [(handleSendMessage userMessage mode sel backend now st).fst]
    ∧ (handleSendMessage userMessage mode sel backend now st).fst.message
        = userMessage
    ∧ (handleSendMessage userMessage mode sel backend now st).fst.response
        = (match backend with
           | Except.ok s => s
           | Except.error e => errorFallback e)
    ∧ (∀ e : String, errorFallback e ≠ "")
    ∧ ((∀ s : String, backend = Except.ok s → s ≠ "") →
        (handleSendMessage userMessage mode sel backend now st).fst.response
          ≠ "") := by
  have hfallback : ∀ e : String, errorFallback e ≠ "" := fun e =>
    append_ne_empty_left _ _ (by decide)
  refine ⟨rfl, rfl, ?_, hfallback, ?_⟩
  · cases backend <;> rfl
  · intro hne
    cases backend with
    | ok s =>
      have hr : (handleSendMessage userMessage mode sel (Except.ok s) now
          st).fst.response = s := rfl
      rw [hr]
      exact hne s rfl
    | error e =>
      have hr : (handleSendMessage userMessage mode sel (Except.error e) now
          st).fst.response = errorFallback e := rfl
      rw [hr]
      exact hfallback e

/-- Witness for C1 (amended) on a failed backend call. -/
theorem c1_persisted_response_witness :
    getChatHistory (handleSendMessage "hello" ContextMode.all []
        (Except.error "network error") 7 emptyStore).snd
      = getChatHistory emptyStore
        ++ [(handleSendMessage "hello" ContextMode.all []
            (Except.error "network error") 7 emptyStore).fst]
    ∧ (handleSendMessage "hello" ContextMode.all []
        (Except.error "network error") 7 emptyStore).fst.response ≠ "" :=
  ⟨(c1_persisted_response "hello" ContextMode.all []
      (Except.error "network error") 7 emptyStore).1,
   (c1_persisted_response "hello" ContextMode.all []
      (Except.error "network error") 7 emptyStore).2.2.2.2
      (fun _ h => Except.noConfusion h)⟩

end SendMessageTheorems

section LifecycleTheorems

open GuestService

/-- C6: on the resume transition with guest mode active and a last-hidden
timestamp present, an elapsed time above 30 minutes clears both
collections and the guest-mode flag and triggers a reload, while an
elapsed time of 30 minutes or less leaves the store untouched and does not
reload. -/
theorem c6_resume_expiry (now t : Nat) (st : Store)
    (hmode : st.guestMode = true)
    (hlast : st.guestModeLastActive = some t) :
    (30 * 60 * 1000 < now - t →
      onVisibilityVisible now st = (clearAllData st, true)
      ∧ getDocuments (clearAllData st) = []
      ∧ getChatHistory (clearAllData st) = []
      ∧ (clearAllData st).guestMode = false)
    ∧ (now - t ≤ 30 * 60 * 1000 →
      onVisibilityVisible now st = (st, false)) := by
  constructor
  · intro h
    refine ⟨?_, rfl, rfl, rfl⟩
    simp [onVisibilityVisible, hmode, hlast, h]
  · intro h
    simp [onVisibilityVisible, hmode, hlast, Nat.not_lt.mpr h]

/-- Witness for C6: a ten-minute absence leaves the store unchanged, an
absence one millisecond above the 30-minute threshold clears it and
reloads. -/
theorem c6_resume_expiry_witness :
    let doc : GuestDocument := ⟨"1", "a.txt", "text/plain", "x", "iso:1"⟩
    let st : Store := ⟨Slot.stored [doc], Slot.stored [], true, some 0⟩
    onVisibilityVisible 600000 st = (st, false)
    ∧ onVisibilityVisible 1800001 st = (clearAllData st, true)
    ∧ getDocuments (clearAllData st) = []
    ∧ getChatHistory (clearAllData st) = [] := by
  intro doc st
  refine ⟨(c6_resume_expiry 600000 0 st rfl rfl).2 (by decide), ?_⟩
  have h := (c6_resume_expiry 1800001 0 st rfl rfl).1 (by decide)
  exact ⟨h.1, h.2.1, h.2.2.1⟩

end LifecycleTheorems

section StorageInfoTheorems

open GuestService

theorem kb_floor (n : Nat) :
    (⌊10 * ((n : ℚ) / 1024) + 1 / 2⌋₊ : ℕ) = (10 * n + 512) / 1024 := by
  have h : 10 * ((n : ℚ) / 1024) + 1 / 2
      = ((10 * n + 512 : ℕ) : ℚ) / ((1024 : ℕ) : ℚ) := by
    push_cast
    ring
  rw [h, Nat.floor_div_nat, Nat.floor_natCast]

theorem mb_floor (n : Nat) :
    (⌊10 * ((n : ℚ) / (1024 * 1024)) + 1 / 2⌋₊ : ℕ)
      = (10 * n + 524288) / 1048576 := by
  have h : 10 * ((n : ℚ) / (1024 * 1024)) + 1 / 2
      = ((10 * n + 524288 : ℕ) : ℚ) / ((1048576 : ℕ) : ℚ) := by
    push_cast
    ring
  rw [h, Nat.floor_div_nat, Nat.floor_natCast]

/-- C8: the size estimate reports plain bytes below 1024, the quotient by
1024 rendered to one decimal with a KB suffix from 1024 up to 1048575, and
the quotient by 1048576 rendered to one decimal with an MB suffix from
1048576 on; getStorageInfo reports exactly this rendering of the total
serialized size. -/
theorem c8_storage_unit_scaling (n : Nat) (st : Store) :
    (n < 1024 → formatBytes n = toString n ++ " bytes")
    ∧ (1024 ≤ n → n < 1024 * 1024 →
        formatBytes n = ratToFixed1 ((n : ℚ) / 1024) ++ " KB")
    ∧ (1024 * 1024 ≤ n →
        formatBytes n = ratToFixed1 ((n : ℚ) / (1024 * 1024)) ++ " MB")
    ∧ (getStorageInfo st).estimatedSize
        = formatBytes (totalSerializedBytes st) := by
  refine ⟨fun h => ?_, fun h1 h2 => ?_, fun h => ?_, rfl⟩
  · simp [formatBytes, h]
  · show (if n < 1024 then _ else _) = _
    rw [if_neg (Nat.not_lt.mpr h1), if_pos h2]
    show toString ((10 * n + 1024 / 2) / 1024 / 10) ++ "."
        ++ toString ((10 * n + 1024 / 2) / 1024 % 10) ++ " KB" = _
    show _ = toString (⌊10 * ((n : ℚ) / 1024) + 1 / 2⌋₊ / 10) ++ "."
        ++ toString (⌊10 * ((n : ℚ) / 1024) + 1 / 2⌋₊ % 10) ++ " KB"
    rw [kb_floor]
  · have h1 : ¬ n < 1024 := by omega
    have h2 : ¬ n < 1024 * 1024 := by omega
    show (if n < 1024 then _ else _) = _
    rw [if_neg h1, if_neg h2]
    show toString ((10 * n + 1024 * 1024 / 2) / (1024 * 1024) / 10) ++ "."
        ++ toString ((10 * n + 1024 * 1024 / 2) / (1024 * 1024) % 10)
        ++ " MB" = _
    show _ = toString (⌊10 * ((n : ℚ) / (1024 * 1024)) + 1 / 2⌋₊ / 10)
        ++ "." ++ toString (⌊10 * ((n : ℚ) / (1024 * 1024)) + 1 / 2⌋₊ % 10)
        ++ " MB"
    rw [mb_floor]

/-- Witness for C8 at the 1024-byte boundary and the examples of the
spec. -/
theorem c8_storage_unit_scaling_witness :
    formatBytes 1023 = toString 1023 ++ " bytes"
    ∧ formatBytes 1024 = ratToFixed1 ((1024 : ℚ) / 1024) ++ " KB"
    ∧ formatBytes 1023 = "1023 bytes"
    ∧ formatBytes 1024 = "1.0 KB"
    ∧ formatBytes 1048576 = "1.0 MB" :=
  ⟨(c8_storage_unit_scaling 1023 emptyStore).1 (by decide),
   (c8_storage_unit_scaling 1024 emptyStore).2.1 (by decide) (by decide),
   by decide, by decide, by decide⟩

end StorageInfoTheorems

end AskStash
